import Mathlib

/-!
# Verification of the stream-camera central core

Shallow embedding of the parking-management central core
(`backend-central/database.py`, `backend-central/parking_state.py`,
`backend-central/p2p/event_handler.py`, `backend-central/p2p/database_extensions.py`,
`backend-central/app.py`) and of the edge plate tracker
(`unified_app/core/plate_tracker.py`), together with proofs and refutations of
the specification's claims about them.

Conventions:
* SQLite rows become Lean structures; nullable columns are `Option` fields.
* The history table is a `List HistoryRow`; `AUTOINCREMENT` ids come from a
  `nextId` counter; the `created_at DEFAULT CURRENT_TIMESTAMP` column is
  modelled by a monotone insertion tick (mutations are serialized under the
  writer lock, so insertion order respects wall-clock order).
* Wall-clock reads (`datetime.now()`, `CURRENT_TIMESTAMP`, `time.time()`)
  are passed in as explicit arguments.
* A Python exception escaping a database call is caught by the calling
  handler's `try/except`; every such path leaves the store unchanged, which
  the embedding models by returning the input store.
-/

namespace StreamCamera

/-- SQL `=` comparison between two nullable TEXT values: `NULL` compares
unequal to everything, including `NULL` itself. -/
def sqlEq : Option String → Option String → Bool
  | some a, some b => a == b
  | _, _ => false

/-- Python `str(x)` as used inside f-strings, where `x` is a nullable string
(`None` prints as `"None"`). -/
def pyStr : Option String → String
  | some s => s
  | none => "None"

/-- A row of the `history` table (`database.py`, `CREATE TABLE history`).
`plate_id`, `plate_view`, `entry_time` are `NOT NULL` columns but are kept as
`Option` so that the NOT-NULL constraint can be enforced at the INSERT site,
as SQLite does. -/
structure HistoryRow where
  id : Nat
  event_id : Option String
  source_central : Option String
  edge_id : Option String
  plate_id : Option String
  plate_view : Option String
  entry_time : Option String
  entry_camera_id : Option Int
  entry_camera_name : Option String
  entry_confidence : Option ℚ
  entry_source : Option String
  exit_time : Option String
  exit_camera_id : Option Int
  exit_camera_name : Option String
  exit_confidence : Option ℚ
  exit_source : Option String
  duration : Option String
  fee : ℚ
  status : String
  sync_status : String
  last_location : Option String
  last_location_time : Option String
  is_anomaly : Nat
  created_at : Nat
  updated_at : Option String
  deriving DecidableEq, Repr

/-- A row of the `history_changes` audit table (`database.py`).
`old_data` / `new_data` hold the JSON snapshot of the full record; the
embedding keeps the record itself instead of its JSON serialization. -/
structure HistoryChange where
  history_id : Nat
  change_type : String
  old_plate_id : Option String
  old_plate_view : Option String
  new_plate_id : Option String
  new_plate_view : Option String
  old_data : Option HistoryRow
  new_data : Option HistoryRow
  changed_by : String
  deriving DecidableEq, Repr

/-- The persistent store of one central: the `history` table, the
`history_changes` audit table, and the AUTOINCREMENT counter. -/
structure Store where
  history : List HistoryRow
  changes : List HistoryChange
  nextId : Nat
  deriving DecidableEq, Repr

/-- A fresh database (SQLite AUTOINCREMENT starts at 1). -/
def emptyStore : Store := { history := [], changes := [], nextId := 1 }

/-! ## `database.py` row-level operations -/

/-- The dict built by `CentralDatabase.find_vehicle_in_parking`
(`database.py:660-693`, the definition that overrides the earlier one at
line 271).  Its explicit SELECT column list is
`id, plate_id, plate_view, entry_time, status, last_location,
last_location_time, is_anomaly` — in particular it has **no** `event_id`
key. -/
structure FoundVehicle where
  id : Nat
  plate_id : Option String
  plate_view : Option String
  entry_time : Option String
  status : String
  last_location : Option String
  last_location_time : Option String
  is_anomaly : Nat
  deriving DecidableEq, Repr

/-- Model of `dict.get("event_id")` on the dict returned by
`find_vehicle_in_parking`: the key is absent from its SELECT column list, so
Python's `dict.get` yields `None` for every such dict. -/
def FoundVehicle.getEventId (_ : FoundVehicle) : Option String := none

/-- Model of `ORDER BY entry_time DESC` comparison on a nullable TEXT column:
SQLite sorts NULLs last in descending order, so `none` is smallest. -/
def entryTimeLt : Option String → Option String → Bool
  | none, some _ => true
  | some a, some b => a < b
  | _, _ => false

/-- One step of an `ORDER BY ... DESC LIMIT 1` scan: replace the current
best row when `newer` says the candidate sorts strictly later. -/
def pickNewer (newer : HistoryRow → HistoryRow → Bool) :
    Option HistoryRow → HistoryRow → Option HistoryRow
  | none, r => some r
  | some b, r => if newer b r then some r else some b

/-- Model of `ORDER BY entry_time DESC LIMIT 1`: keep the scan-order-first row with
the greatest `entry_time`. -/
def selectNewestByEntryTime (rows : List HistoryRow) : Option HistoryRow :=
  rows.foldl (pickNewer (fun b r => entryTimeLt b.entry_time r.entry_time)) none

/-- Model of `CentralDatabase.find_vehicle_in_parking` (`database.py:660-693`):
`SELECT id, plate_id, plate_view, entry_time, status, last_location,
last_location_time, is_anomaly FROM history WHERE plate_id = ? AND
status = 'IN' ORDER BY entry_time DESC LIMIT 1`. -/
def find_vehicle_in_parking (s : Store) (plate_id : Option String) : Option FoundVehicle :=
  let rows := s.history.filter (fun r => sqlEq r.plate_id plate_id && r.status == "IN")
  (selectNewestByEntryTime rows).map (fun r =>
    { id := r.id, plate_id := r.plate_id, plate_view := r.plate_view,
      entry_time := r.entry_time, status := r.status,
      last_location := r.last_location, last_location_time := r.last_location_time,
      is_anomaly := r.is_anomaly })

/-- Model of `event_exists` (`p2p/database_extensions.py:102-116`):
`SELECT 1 FROM history WHERE event_id = ? LIMIT 1`.  A `NULL` parameter
matches no row (SQL three-valued logic), and rows whose `event_id` column is
`NULL` never match a non-null parameter. -/
def event_exists (s : Store) (event_id : Option String) : Bool :=
  match event_id with
  | none => false
  | some e => s.history.any (fun r => r.event_id == some e)

/-- Model of `add_vehicle_entry` (`database.py:181-236`): INSERT a fresh `'IN'` row.
The arguments that reach it from `_process_entry` are non-null strings, so
the insert always succeeds; it returns the new row's id (`lastrowid`). -/
def add_vehicle_entry (s : Store) (plate_id plate_view entry_time : String)
    (camera_id : Option Int) (camera_name : Option String) (confidence : ℚ)
    (source : Option String) (event_id : Option String)
    (source_central : Option String) (edge_id : Option String)
    (sync_status : String) : Store × Nat :=
  let row : HistoryRow :=
    { id := s.nextId, event_id := event_id, source_central := source_central,
      edge_id := edge_id, plate_id := some plate_id, plate_view := some plate_view,
      entry_time := some entry_time, entry_camera_id := camera_id,
      entry_camera_name := camera_name, entry_confidence := some confidence,
      entry_source := source, exit_time := none, exit_camera_id := none,
      exit_camera_name := none, exit_confidence := none, exit_source := none,
      duration := none, fee := 0, status := "IN", sync_status := sync_status,
      last_location := none, last_location_time := none, is_anomaly := 0,
      created_at := s.nextId, updated_at := none }
  ({ s with history := s.history ++ [row], nextId := s.nextId + 1 }, s.nextId)

/-- Model of `add_vehicle_entry_p2p` (`p2p/database_extensions.py:11-61`): INSERT a
remote entry with `status='IN', sync_status='SYNCED'`.  `plate_id`,
`plate_view` and `entry_time` are NOT-NULL columns: a `None` argument makes
the INSERT raise `IntegrityError`, the transaction is rolled back and the
exception propagates to the caller (`none` result, store unchanged). -/
def add_vehicle_entry_p2p (s : Store) (event_id : Option String)
    (source_central : Option String) (edge_id : Option String)
    (plate_id plate_view entry_time : Option String)
    (camera_id : Option Int) (camera_name : Option String)
    (confidence : ℚ) (source : Option String) : Store × Option Nat :=
  match plate_id, plate_view, entry_time with
  | some p, some v, some et =>
    let row : HistoryRow :=
      { id := s.nextId, event_id := event_id, source_central := source_central,
        edge_id := edge_id, plate_id := some p, plate_view := some v,
        entry_time := some et, entry_camera_id := camera_id,
        entry_camera_name := camera_name, entry_confidence := some confidence,
        entry_source := source, exit_time := none, exit_camera_id := none,
        exit_camera_name := none, exit_confidence := none, exit_source := none,
        duration := none, fee := 0, status := "IN", sync_status := "SYNCED",
        last_location := none, last_location_time := none, is_anomaly := 0,
        created_at := s.nextId, updated_at := none }
    ({ s with history := s.history ++ [row], nextId := s.nextId + 1 }, some s.nextId)
  | _, _, _ => (s, none)

/-- Model of `delete_entry_by_event_id` (`p2p/database_extensions.py:119-141`):
`DELETE FROM history WHERE event_id = ?` with a non-null parameter. -/
def delete_entry_by_event_id (s : Store) (event_id : String) : Store × Bool :=
  let remaining := s.history.filter (fun r => !(r.event_id == some event_id))
  ({ s with history := remaining }, remaining.length < s.history.length)

/-- Model of `ORDER BY entry_time DESC, created_at DESC LIMIT 1` (the subquery of
`update_vehicle_exit`). -/
def selectNewestByEntryTimeCreated (rows : List HistoryRow) : Option HistoryRow :=
  rows.foldl (pickNewer (fun b r =>
    entryTimeLt b.entry_time r.entry_time ||
      (b.entry_time == r.entry_time && b.created_at < r.created_at))) none

/-- Model of `update_vehicle_exit` (`database.py:238-269`): complete the most recent
live `'IN'` row of the plate.  `now` models the `CURRENT_TIMESTAMP` written
to `updated_at`. -/
def update_vehicle_exit (s : Store) (plate_id : String) (exit_time : String)
    (camera_id : Option Int) (camera_name : Option String) (confidence : ℚ)
    (source : Option String) (duration : String) (fee : ℚ) (now : String) :
    Store × Bool :=
  let candidates := s.history.filter (fun r =>
    sqlEq r.plate_id (some plate_id) && r.status == "IN" && r.exit_time == none)
  match selectNewestByEntryTimeCreated candidates with
  | none => (s, false)
  | some target =>
    ({ s with history := s.history.map (fun r =>
        if r.id == target.id then
          { r with
            exit_time := some exit_time, exit_camera_id := camera_id,
            exit_camera_name := camera_name, exit_confidence := some confidence,
            exit_source := source, duration := some duration, fee := fee,
            status := "OUT", updated_at := some now }
        else r) }, true)

/-- Model of `get_history_entry_by_id` (`database.py:586-599`):
`SELECT * FROM history WHERE id = ? LIMIT 1`. -/
def get_history_entry_by_id (s : Store) (history_id : Nat) : Option HistoryRow :=
  s.history.find? (fun r => r.id == history_id)

/-- Model of `update_history_entry` (`database.py:488-540`): update the plate fields
of row `history_id` and append one `'UPDATE'` audit row holding the old and
new record snapshots.  `now` models `CURRENT_TIMESTAMP`. -/
def update_history_entry (s : Store) (history_id : Nat)
    (new_plate_id new_plate_view : String) (now : String) : Store × Bool :=
  match s.history.find? (fun r => r.id == history_id) with
  | none => (s, false)
  | some oldR =>
    let newHistory := s.history.map (fun r =>
      if r.id == history_id then
        { r with
          plate_id := some new_plate_id, plate_view := some new_plate_view,
          updated_at := some now }
      else r)
    match newHistory.find? (fun r => r.id == history_id) with
    | none => (s, false)
    | some newR =>
      let change : HistoryChange :=
        { history_id := history_id, change_type := "UPDATE",
          old_plate_id := oldR.plate_id, old_plate_view := oldR.plate_view,
          new_plate_id := some new_plate_id, new_plate_view := some new_plate_view,
          old_data := some oldR, new_data := some newR, changed_by := "system" }
      ({ s with history := newHistory, changes := s.changes ++ [change] }, true)

/-! ## String helpers

Python's `str.split(sep)` (for the single-character separators used by the
source: `"_"`, `" "`, `"-"`, `":"`) and decimal parsing, implemented by
structural recursion over the character list. -/

/-- Model of `str.split(sep)` for a one-character separator: adjacent separators
produce empty segments and the empty string splits to `[""]`, as in
Python. -/
def splitChar (sep : Char) : List Char → List (List Char)
  | [] => [[]]
  | c :: rest =>
    match splitChar sep rest with
    | [] => [[]]
    | cur :: parts =>
      if c == sep then [] :: cur :: parts else (c :: cur) :: parts

/-- Model of `int(s)` on a nonempty all-digit string (the shape every numeric field
handled by the source has); anything else raises `ValueError`, modelled as
`none`. -/
def digitsToNat : List Char → Option Nat
  | [] => none
  | l =>
    l.foldl (fun acc c =>
      match acc with
      | none => none
      | some n => if c.isDigit then some (n * 10 + (c.toNat - 48)) else none)
      (some 0)

/-! ## `parking_state.py`: fee calculation -/

/-- A parsed `'%Y-%m-%d %H:%M:%S'` timestamp (`datetime.strptime`). -/
structure DateTime where
  year : Nat
  month : Nat
  day : Nat
  hour : Nat
  minute : Nat
  second : Nat
  deriving DecidableEq, Repr

/-- Leap-year rule of the proleptic Gregorian calendar used by
`datetime`. -/
def isLeapYear (y : Nat) : Bool :=
  (y % 4 == 0 && y % 100 != 0) || y % 400 == 0

/-- Number of days of month `m` in year `y` (for `datetime`'s range
validation). -/
def daysInMonth (y m : Nat) : Nat :=
  if m == 2 then (if isLeapYear y then 29 else 28)
  else if m == 4 || m == 6 || m == 9 || m == 11 then 30
  else 31

/-- Day count of a proleptic Gregorian civil date, shifted so that all
values for year ≥ 1 are nonnegative (the constant offset cancels in every
difference, which is all `datetime` subtraction needs). -/
def civilDays (y m d : Nat) : Nat :=
  let y' := if m ≤ 2 then y - 1 else y
  let era := y' / 400
  let yoe := y' % 400
  let mp := (m + 9) % 12
  let doy := (153 * mp + 2) / 5 + d - 1
  let doe := yoe * 365 + yoe / 4 - yoe / 100 + doy
  era * 146097 + doe

/-- Seconds-since-origin of a parsed timestamp; `d2.toSecs - d1.toSecs`
models Python's `(dt2 - dt1).total_seconds()` (exact for second-resolution
datetimes). -/
def DateTime.toSecs (dt : DateTime) : Nat :=
  civilDays dt.year dt.month dt.day * 86400 + dt.hour * 3600 + dt.minute * 60 + dt.second

/-- Model of `datetime.strptime(s, '%Y-%m-%d %H:%M:%S')`: split into date and time
fields, parse each as a decimal number, and validate the calendar ranges;
any failure raises `ValueError`, modelled as `none`. -/
def parseDateTime (s : String) : Option DateTime :=
  match splitChar ' ' s.data with
  | [datePart, timePart] =>
    match splitChar '-' datePart, splitChar ':' timePart with
    | [ys, ms, ds], [hs, mins, secs] =>
      match digitsToNat ys, digitsToNat ms, digitsToNat ds,
            digitsToNat hs, digitsToNat mins, digitsToNat secs with
      | some y, some mo, some d, some h, some mi, some sec =>
        if 1 ≤ mo && mo ≤ 12 && 1 ≤ d && d ≤ daysInMonth y mo &&
           h ≤ 23 && mi ≤ 59 && sec ≤ 59 then
          some { year := y, month := mo, day := d, hour := h, minute := mi, second := sec }
        else none
      | _, _, _, _, _, _ => none
    | _, _ => none
  | _ => none

/-- Python `int(q)` on a number: truncation toward zero. -/
def pyInt (q : ℚ) : ℤ :=
  if q < 0 then -⌊-q⌋ else ⌊q⌋

/-- Model of `ParkingStateManager._calculate_fee` (`parking_state.py:243-277`).
The fee parameters (`fees.get("fee_base", 0.5) or 0`,
`fees.get("fee_per_hour", 25000) or 0`) come from the 60-second fee cache
and are passed explicitly; Python's float arithmetic is modelled exactly
over `ℚ`.  `none` models the `ValueError` of an unparsable timestamp. -/
def calculate_fee (feeBase feePerHour : ℚ) (entry_time_str exit_time_str : String) :
    Option (String × ℚ) :=
  match parseDateTime entry_time_str, parseDateTime exit_time_str with
  | some entry, some exit =>
    let durationSeconds : ℤ := (exit.toSecs : ℤ) - (entry.toSecs : ℤ)
    let durationHours : ℚ := (durationSeconds : ℚ) / 3600
    let hours : ℤ := pyInt durationHours
    let minutes : ℤ := pyInt ((durationHours - hours) * 60)
    let durationStr := toString hours ++ " giờ " ++ toString minutes ++ " phút"
    let fee : ℚ :=
      if durationHours ≤ feeBase then 0
      else (⌈durationHours - feeBase⌉ : ℚ) * feePerHour
    some (durationStr, fee)
  | _, _ => none

/-! ## `parking_state.py`: entry / exit processing -/

/-- The result dict of `ParkingStateManager._process_entry`
(`parking_state.py:120-170`); keys absent from a given return branch are
`none`. -/
structure EntryResult where
  success : Bool
  error : Option String
  already_inside : Bool
  action : Option String
  message : Option String
  plate_id : Option String
  plate_view : Option String
  history_id : Option Nat
  entry_time : Option String
  event_id : Option String
  deriving DecidableEq, Repr

/-- Model of `ParkingStateManager._process_entry` (`parking_state.py:120-170`): reject
the entry when the plate already has a live `'IN'` row — the error dict's
`"event_id"` field is `existing.get("event_id")` on the event-id-less dict of
`find_vehicle_in_parking` — otherwise insert a fresh row with
`sync_status='LOCAL'`.  `now` models `datetime.now().strftime(...)`. -/
def process_entry (s : Store) (plate_id plate_view : String)
    (camera_id : Option Int) (camera_name : Option String) (confidence : ℚ)
    (source : Option String) (event_id : Option String) (edge_id : Option String)
    (now : String) : Store × EntryResult :=
  match find_vehicle_in_parking s (some plate_id) with
  | some existing =>
    (s, { success := false,
          error := some ("Xe " ++ plate_view ++ " đã ở trong bãi (vào lúc " ++
            pyStr existing.entry_time ++ ")"),
          already_inside := true, action := none, message := none,
          plate_id := none, plate_view := none, history_id := none,
          entry_time := existing.entry_time,
          event_id := existing.getEventId })
  | none =>
    let entry_time := now
    let (s1, history_id) := add_vehicle_entry s plate_id plate_view entry_time
      camera_id camera_name confidence source event_id none edge_id "LOCAL"
    if history_id != 0 then
      (s1, { success := true, error := none, already_inside := false,
             action := some "ENTRY",
             message := some ("Xe " ++ plate_view ++ " VÀO bãi"),
             plate_id := some plate_id, plate_view := some plate_view,
             history_id := some history_id, entry_time := some entry_time,
             event_id := event_id })
    else
      (s1, { success := false,
             error := some ("Không thể lưu xe " ++ plate_view ++ " vào database"),
             already_inside := false, action := none, message := none,
             plate_id := none, plate_view := none, history_id := none,
             entry_time := none, event_id := none })

/-- Model of `ParkingStateManager._process_exit` (`parking_state.py:172-219`): find
the live row, compute duration and fee, and complete the exit.  The returned
`Bool` is the reported `success` flag; a `strptime` failure inside
`_calculate_fee` raises and is caught by the calling route with the store
unchanged.  `now` models `datetime.now().strftime(...)`; `feeBase` and
`feePerHour` are the cached fee parameters. -/
def process_exit (s : Store) (plate_id : String)
    (camera_id : Option Int) (camera_name : Option String) (confidence : ℚ)
    (source : Option String) (now : String) (feeBase feePerHour : ℚ) :
    Store × Bool :=
  match find_vehicle_in_parking s (some plate_id) with
  | none => (s, false)
  | some entry =>
    match entry.entry_time with
    | none => (s, false)
    | some entryTime =>
      match calculate_fee feeBase feePerHour entryTime now with
      | none => (s, false)
      | some (duration, fee) =>
        ((update_vehicle_exit s plate_id now camera_id camera_name confidence
            source duration fee now).1, true)

/-! ## `p2p/protocol.py` and `p2p/event_handler.py` -/

/-- The `data` dict of a `VEHICLE_ENTRY_PENDING` envelope, holding the keys
`handle_vehicle_entry_pending` reads via `data.get(...)`. -/
structure PendingData where
  plate_id : Option String
  plate_view : Option String
  edge_id : Option String
  camera_type : Option String
  entry_time : Option String
  deriving DecidableEq, Repr

/-- A `P2PMessage` (`p2p/protocol.py:33-49`) carrying a
`VEHICLE_ENTRY_PENDING` payload. -/
structure P2PMessage where
  source_central : Option String
  timestamp : Int
  event_id : Option String
  data : PendingData
  deriving DecidableEq, Repr

/-- Model of `P2PEventHandler._parse_timestamp_from_event_id`
(`p2p/event_handler.py:296-309`): split on `'_'` and parse the second part
as an integer; any exception (including the `AttributeError` of splitting
`None`) yields `None`. -/
def parse_timestamp_from_event_id (event_id : Option String) : Option Nat :=
  match event_id with
  | none => none
  | some e =>
    match splitChar '_' e.data with
    | _ :: tsPart :: _ => digitsToNat tsPart
    | _ => none

/-- Model of `P2PEventHandler._resolve_conflict` (`p2p/event_handler.py:224-290`).
`existing_event_id` is `existing_entry.get("event_id")`, where
`existing_entry` is the dict produced by `find_vehicle_in_parking`; that
dict has no `"event_id"` key (see `FoundVehicle.getEventId`), so the
resolver takes the keep-local branch.  The older-wins branch below is kept
as written in the source. -/
def resolve_conflict (s : Store) (existing_entry : FoundVehicle)
    (new_message : P2PMessage) : Store :=
  match existing_entry.getEventId with
  | none => s
  | some existing_event_id =>
    match parse_timestamp_from_event_id (some existing_event_id),
          parse_timestamp_from_event_id new_message.event_id with
    | some existing_timestamp, some new_timestamp =>
      if new_timestamp < existing_timestamp then
        let s1 := (delete_entry_by_event_id s existing_event_id).1
        (add_vehicle_entry_p2p s1 new_message.event_id new_message.source_central
          new_message.data.edge_id new_message.data.plate_id
          new_message.data.plate_view new_message.data.entry_time
          none (some (pyStr new_message.source_central ++ "/" ++
            pyStr new_message.data.edge_id)) 0 (some "p2p_sync")).1
      else s
    | _, _ => s

/-- Model of `P2PEventHandler.handle_vehicle_entry_pending`
(`p2p/event_handler.py:25-107`): skip on `EventExists`, resolve the conflict
when the plate already has a live row, otherwise insert the remote entry
with `sync_status='SYNCED'`.  The WebSocket emissions do not touch the
store; a database exception is caught by the handler's `try/except` with the
store unchanged (already the behaviour of the embedded store operations). -/
def handle_vehicle_entry_pending (s : Store) (message : P2PMessage) : Store :=
  if event_exists s message.event_id then s
  else
    match find_vehicle_in_parking s message.data.plate_id with
    | some existing => resolve_conflict s existing message
    | none =>
      (add_vehicle_entry_p2p s message.event_id message.source_central
        message.data.edge_id message.data.plate_id message.data.plate_view
        message.data.entry_time none
        (some (pyStr message.source_central ++ "/" ++ pyStr message.data.edge_id))
        0 (some "p2p_sync")).1

/-! ## `app.py`: edge fan-out -/

/-- The event dict pushed to edges by the admin-UPDATE branch of
`handle_edge_websocket_event` (`app.py:2168-2180`). -/
structure EdgeUpdateEvent where
  type : String
  history_id : Option Nat
  event_id : Option String
  plate_text : Option String
  plate_view : Option String
  deriving DecidableEq, Repr

/-- Model of `broadcast_to_edges` (`app.py:2480-2502`): iterate over **every** entry
of `edge_websocket_connections` and send the event to each; the function has
no parameter identifying the originating edge and performs no exclusion.
Send failures only prune dead connections; successful sends are returned as
`(edge_id, event)` pairs. -/
def broadcast_to_edges (connections : List String) (event : EdgeUpdateEvent) :
    List (String × EdgeUpdateEvent) :=
  connections.map (fun edge_id => (edge_id, event))

/-- The `history_id`-resolved success path of the UPDATE branch of
`handle_edge_websocket_event` (`app.py:2148-2190`): the guard
`if history_id and not database.update_history_entry(...)` runs the update
once, and `if history_id and database.update_history_entry(...)` runs it a
second time before broadcasting `update_event` to the edges via
`broadcast_to_edges` — with the sending edge still present in
`connections`. -/
def handle_edge_update_event (s : Store) (connections : List String)
    (history_id : Nat) (event_id : Option String)
    (new_plate_text new_plate_view : String) (now : String) :
    Store × List (String × EdgeUpdateEvent) :=
  let (s1, ok1) := update_history_entry s history_id new_plate_text new_plate_view now
  if ok1 then
    let (s2, ok2) := update_history_entry s1 history_id new_plate_text new_plate_view now
    if ok2 then
      let update_event : EdgeUpdateEvent :=
        { type := "UPDATE", history_id := some history_id, event_id := event_id,
          plate_text := some new_plate_text, plate_view := some new_plate_view }
      (s2, broadcast_to_edges connections update_event)
    else (s2, [])
  else (s1, [])

/-- Model of `P2PManager.broadcast` (`p2p/manager.py:217-244`): send to every peer
with a live inbound WebSocket connection and to every connected outbound
client; there is no exclusion parameter. -/
def p2p_broadcast (websocket_peers connected_clients : List String)
    (message : P2PMessage) : List (String × P2PMessage) :=
  websocket_peers.map (fun peer_id => (peer_id, message)) ++
    connected_clients.map (fun peer_id => (peer_id, message))

/-! ## `unified_app/core/plate_tracker.py`: the voting tracker

`difflib.SequenceMatcher(None, a, b).ratio()` is pure string arithmetic that
the tracker only consults in the fuzzy-grouping fallback; it is threaded
through as an explicit `ratio` argument so that every statement below holds
for the real ratio function. -/

/-- Model of `''.join(c.upper() for c in s if c.isalnum())` — the normalization used
throughout the tracker. -/
def alnumUpper (s : String) : String :=
  String.mk ((s.data.filter Char.isAlphanum).map Char.toUpper)

/-- Python `c in s` membership of a character in a string. -/
def strHasChar (s : String) (c : Char) : Bool :=
  s.data.contains c

/-- Python truthiness of an `Optional[str]`: `None` and `""` are falsy. -/
def pyTruthy : Option String → Bool
  | none => false
  | some s => !s.data.isEmpty

/-- Model of `collections.Counter(l).most_common(1)[0]` for a nonempty list: the
element with the highest multiplicity, ties resolved in favour of the
first-inserted key (CPython's documented stable behaviour). -/
def mostCommon (l : List String) : Option (String × Nat) :=
  let keys := l.foldl (fun acc x => if acc.contains x then acc else acc ++ [x]) []
  keys.foldl (fun best k =>
    match best with
    | none => some (k, l.count k)
    | some (b, bc) => if l.count k > bc then some (k, l.count k) else some (b, bc))
    none

/-- Model of `PlateVotes._find_formatted_version` (`plate_tracker.py:263-306`):
among the votes with the same normalization as `base_plate`, prefer a
display form having both `-` and `.`, then one with `-`, then one with `.`,
keeping Python's single-pass first-match order. -/
def find_formatted_version (base_plate : String) (votes : List String) :
    Option String :=
  let base_normalized := alnumUpper base_plate
  let same := votes.filter (fun v => alnumUpper v == base_normalized)
  let with_both := same.filter (fun v => strHasChar v '-' && strHasChar v '.')
  let with_dash := same.filter (fun v => strHasChar v '-' && !strHasChar v '.')
  let with_dot := same.filter (fun v => !strHasChar v '-' && strHasChar v '.')
  match with_both with
  | v :: _ => some v
  | [] =>
    match with_dash with
    | v :: _ => some v
    | [] =>
      match with_dot with
      | v :: _ => some v
      | [] => none

/-- Model of `PlateVotes._select_best_format` (`plate_tracker.py:234-261`): the
most-voted display form, upgraded to a separator-carrying sibling when the
winner has neither `-` nor `.`.  `none` only on an empty vote list (where
Python would raise an `IndexError`; never reached by the callers). -/
def select_best_format (votes : List String) : Option String :=
  match mostCommon votes with
  | none => none
  | some (most_common_plate, _) =>
    if strHasChar most_common_plate '-' || strHasChar most_common_plate '.' then
      some most_common_plate
    else
      match find_formatted_version most_common_plate votes with
      | some best => some best
      | none => some most_common_plate

/-- The in-memory state of one `PlateVotes` bucket
(`plate_tracker.py:95-111`). -/
structure PlateVotes where
  window_seconds : ℚ
  min_votes : Nat
  similarity_threshold : ℚ
  votes : List (String × ℚ)
  first_seen : ℚ
  finalized : Bool
  final_result : Option String
  deriving DecidableEq, Repr

/-- Model of `PlateVotes.__init__`. -/
def PlateVotes.init (window_seconds : ℚ) (min_votes : Nat)
    (similarity_threshold : ℚ) (first_seen : ℚ) : PlateVotes :=
  { window_seconds := window_seconds, min_votes := min_votes,
    similarity_threshold := similarity_threshold, votes := [],
    first_seen := first_seen, finalized := false, final_result := none }

/-- Model of `PlateVotes._check_early_stop` (`plate_tracker.py:149-182`): once the
bucket holds at least `min_votes` votes, count votes by normalized text and
commit the best display form of the most common normalization as soon as it
reaches `min_votes`. -/
def check_early_stop (pv : PlateVotes) : Option String :=
  if pv.votes.length < pv.min_votes then none
  else
    let normalized_votes := pv.votes.map (fun v => alnumUpper v.1)
    match mostCommon normalized_votes with
    | none => none
    | some (most_common_normalized, count) =>
      if count ≥ pv.min_votes then
        select_best_format
          ((pv.votes.filter (fun v => alnumUpper v.1 == most_common_normalized)).map
            (fun v => v.1))
      else none

/-- Model of `PlateVotes._is_similar` (`plate_tracker.py:308-325`): exact equality of
the normalizations, else `SequenceMatcher.ratio() >= similarity_threshold`. -/
def is_similar (ratio : String → String → ℚ) (similarity_threshold : ℚ)
    (text1 text2 : String) : Bool :=
  let t1 := alnumUpper text1
  let t2 := alnumUpper text2
  if t1 == t2 then true else decide (ratio t1 t2 ≥ similarity_threshold)

/-- One step of `PlateVotes._group_similar_plates`: append the vote to the
first group whose representative is similar, else open a new group. -/
def insert_into_groups (ratio : String → String → ℚ) (thr : ℚ) :
    List (String × List String) → String → List (String × List String)
  | [], plate_text => [(plate_text, [plate_text])]
  | (rep, votes) :: rest, plate_text =>
    if is_similar ratio thr plate_text rep then (rep, votes ++ [plate_text]) :: rest
    else (rep, votes) :: insert_into_groups ratio thr rest plate_text

/-- Model of `PlateVotes._group_similar_plates` (`plate_tracker.py:207-232`). -/
def group_similar_plates (ratio : String → String → ℚ) (pv : PlateVotes) :
    List (String × List String) :=
  pv.votes.foldl (fun groups v => insert_into_groups ratio pv.similarity_threshold groups v.1) []

/-- Model of `max(groups, key=lambda g: len(g['votes']))`: first group of maximal
size (Python's `max` keeps the first maximum). -/
def largest_group (groups : List (String × List String)) :
    Option (String × List String) :=
  groups.foldl (fun best g =>
    match best with
    | none => some g
    | some b => if g.2.length > b.2.length then some g else some b) none

/-- Model of `PlateVotes._get_consensus` (`plate_tracker.py:184-205`). -/
def get_consensus (ratio : String → String → ℚ) (pv : PlateVotes) : Option String :=
  if pv.votes.isEmpty then none
  else
    match largest_group (group_similar_plates ratio pv) with
    | none => none
    | some best_group =>
      if best_group.2.length ≥ pv.min_votes then select_best_format best_group.2
      else none

/-- Model of `PlateVotes.add_vote` (`plate_tracker.py:113-147`): cache-hit once
finalized; otherwise append the vote at `current_time`, evict votes older
than the window, try the early stop, then the fallback consensus.  Both
commit checks go through Python truthiness, so an empty-string consensus
never finalizes the bucket. -/
def add_vote (ratio : String → String → ℚ) (pv : PlateVotes)
    (plate_text : String) (current_time : ℚ) : PlateVotes × Option String :=
  if pv.finalized then (pv, pv.final_result)
  else
    let cutoff_time := current_time - pv.window_seconds
    let votes := (pv.votes ++ [(plate_text, current_time)]).filter
      (fun v => decide (cutoff_time ≤ v.2))
    let pv1 := { pv with votes := votes }
    let result := check_early_stop pv1
    if pyTruthy result then
      ({ pv1 with finalized := true, final_result := result }, result)
    else if pv1.votes.length ≥ pv1.min_votes then
      let result2 := get_consensus ratio pv1
      if pyTruthy result2 then
        ({ pv1 with finalized := true, final_result := result2 }, result2)
      else (pv1, none)
    else (pv1, none)

/-- Feed a sequence of `(plate_text, time)` detections to one bucket,
collecting the value `add_vote` returns at each arrival. -/
def add_votes (ratio : String → String → ℚ) (pv : PlateVotes) :
    List (String × ℚ) → PlateVotes × List (Option String)
  | [] => (pv, [])
  | (text, t) :: rest =>
    let (pv1, out) := add_vote ratio pv text t
    let (pv2, outs) := add_votes ratio pv1 rest
    (pv2, out :: outs)

/-! ## Operation sequences over one central's store -/

/-- One store-mutating operation on a central, at the granularity the claims
quantify over: a local ENTRY (`_process_entry`), a local EXIT
(`_process_exit`), or a peer `VEHICLE_ENTRY_PENDING` envelope
(`handle_vehicle_entry_pending`). -/
inductive ParkingOp where
  | entry (plate_id plate_view : String) (camera_id : Option Int)
      (camera_name : Option String) (confidence : ℚ) (source : Option String)
      (event_id : Option String) (edge_id : Option String) (now : String)
  | exit (plate_id : String) (camera_id : Option Int)
      (camera_name : Option String) (confidence : ℚ) (source : Option String)
      (now : String) (feeBase feePerHour : ℚ)
  | pending (message : P2PMessage)
  deriving DecidableEq, Repr

/-- The plate an operation is about (`None` when a peer envelope carries no
`plate_id`). -/
def ParkingOp.plate : ParkingOp → Option String
  | .entry plate_id _ _ _ _ _ _ _ _ => some plate_id
  | .exit plate_id _ _ _ _ _ _ _ => some plate_id
  | .pending message => message.data.plate_id

/-- Apply one operation to the store, discarding the non-store outputs. -/
def applyOp (s : Store) : ParkingOp → Store
  | .entry plate_id plate_view camera_id camera_name confidence source event_id edge_id now =>
    (process_entry s plate_id plate_view camera_id camera_name confidence source
      event_id edge_id now).1
  | .exit plate_id camera_id camera_name confidence source now feeBase feePerHour =>
    (process_exit s plate_id camera_id camera_name confidence source now
      feeBase feePerHour).1
  | .pending message => handle_vehicle_entry_pending s message

/-- Apply a sequence of operations left to right. -/
def applyOps (s : Store) : List ParkingOp → Store
  | [] => s
  | op :: rest => applyOps (applyOp s op) rest

/-- A row is *live* for plate `p` when it matches the claimed invariant's
predicate: `plate_id = p`, `status = 'IN'`, `exit_time IS NULL`. -/
def isLiveRow (p : String) (r : HistoryRow) : Bool :=
  r.plate_id == some p && r.status == "IN" && r.exit_time == none

/-- Number of live `'IN'` rows of plate `p`. -/
def liveInCount (p : String) (s : Store) : Nat :=
  s.history.countP (isLiveRow p)

/-! ## Dedup guard of the edge channel (`app.py:2410-2413`) -/

/-- The dedup guard of `handle_edge_websocket_event` (`app.py:2410-2413`):
`if event_id and database and database.event_exists(event_id)` — an absent
(or empty) `event_id` short-circuits the guard, so the `EventExists` lookup
is skipped entirely. -/
def edge_dedup_guard (s : Store) (event_id : Option String) : Bool :=
  pyTruthy event_id && event_exists s event_id

/-! ## Concrete inputs used by the claim theorems -/

/-- The `history` row used for the C1 failing input: a local entry for plate
`29A12345` authored by central `c2` with event-id timestamp `1200`. -/
def conflictLocalRow : HistoryRow :=
  { id := 1, event_id := some "c2_1200_29A12345", source_central := none,
    edge_id := some "e1", plate_id := some "29A12345",
    plate_view := some "29A-123.45", entry_time := some "2025-12-02 10:00:20",
    entry_camera_id := some 1, entry_camera_name := some "Cam vao",
    entry_confidence := some 1, entry_source := some "ocr", exit_time := none,
    exit_camera_id := none, exit_camera_name := none, exit_confidence := none,
    exit_source := none, duration := none, fee := 0, status := "IN",
    sync_status := "LOCAL", last_location := none, last_location_time := none,
    is_anomaly := 0, created_at := 1, updated_at := none }

/-- Store for the C1 failing input: exactly the one live row above. -/
def conflictStore : Store :=
  { history := [conflictLocalRow], changes := [], nextId := 2 }

/-- The C1 incoming envelope: the same plate from peer `c1`, with the
strictly older event-id timestamp `1000`. -/
def conflictMessage : P2PMessage :=
  { source_central := some "c1", timestamp := 1000,
    event_id := some "c1_1000_29A12345",
    data := { plate_id := some "29A12345", plate_view := some "29A-123.45",
              edge_id := some "e2", camera_type := some "ENTRY",
              entry_time := some "2025-12-02 10:00:10" } }

/-- The live row for the C8 failing input: plate `29A12345` inside with a
non-null `event_id`. -/
def insideRow : HistoryRow :=
  { id := 1, event_id := some "c1_1000_29A12345", source_central := none,
    edge_id := some "e1", plate_id := some "29A12345",
    plate_view := some "29A-123.45", entry_time := some "2025-12-02 10:00:00",
    entry_camera_id := some 1, entry_camera_name := some "Cam vao",
    entry_confidence := some 1, entry_source := some "ocr", exit_time := none,
    exit_camera_id := none, exit_camera_name := none, exit_confidence := none,
    exit_source := none, duration := none, fee := 0, status := "IN",
    sync_status := "LOCAL", last_location := none, last_location_time := none,
    is_anomaly := 0, created_at := 1, updated_at := none }

/-- Store for the C8 failing input. -/
def insideStore : Store := { history := [insideRow], changes := [], nextId := 2 }

/-- The store backing the C4 failing input: one row that the admin UPDATE
from edge `edge-1` targets. -/
def updateTargetRow : HistoryRow :=
  { id := 42, event_id := some "c1_3000_30G56789", source_central := none,
    edge_id := some "edge-1", plate_id := some "30G56789",
    plate_view := some "30G-567.89", entry_time := some "2025-12-02 09:00:00",
    entry_camera_id := some 3, entry_camera_name := some "Cam vao",
    entry_confidence := some 1, entry_source := some "ocr", exit_time := none,
    exit_camera_id := none, exit_camera_name := none, exit_confidence := none,
    exit_source := none, duration := none, fee := 0, status := "IN",
    sync_status := "LOCAL", last_location := none, last_location_time := none,
    is_anomaly := 0, created_at := 1, updated_at := none }

/-- Store for the C4 failing input. -/
def updateTargetStore : Store :=
  { history := [updateTargetRow], changes := [], nextId := 2 }

/-- The edge event produced by the UPDATE branch for the C4 failing input. -/
def updateBroadcastEvent : EdgeUpdateEvent :=
  { type := "UPDATE", history_id := some 42, event_id := some "c1_3000_30G56789",
    plate_text := some "30G66789", plate_view := some "30G-667.89" }

/-- Local row for the C3 counterexample: a conflicting live entry whose
event-id timestamp `2000` is newer than the incoming `1500`. -/
def replayLocalRow : HistoryRow :=
  { id := 1, event_id := some "c9_2000_51B67890", source_central := none,
    edge_id := some "e1", plate_id := some "51B67890",
    plate_view := some "51B-678.90", entry_time := some "2025-12-01 08:00:00",
    entry_camera_id := some 1, entry_camera_name := some "Cam vao",
    entry_confidence := some 1, entry_source := some "ocr", exit_time := none,
    exit_camera_id := none, exit_camera_name := none, exit_confidence := none,
    exit_source := none, duration := none, fee := 0, status := "IN",
    sync_status := "LOCAL", last_location := none, last_location_time := none,
    is_anomaly := 0, created_at := 1, updated_at := none }

/-- Store for the C3 counterexample. -/
def replayStore : Store := { history := [replayLocalRow], changes := [], nextId := 2 }

/-- Incoming envelope for the C3 counterexample (and the C3 witness). -/
def replayMessage : P2PMessage :=
  { source_central := some "c8", timestamp := 1500,
    event_id := some "c8_1500_51B67890",
    data := { plate_id := some "51B67890", plate_view := some "51B-678.90",
              edge_id := some "e3", camera_type := some "ENTRY",
              entry_time := some "2025-12-01 09:00:00" } }

/-- The single row of the C9 witness store. -/
def auditRow : HistoryRow :=
  { id := 7, event_id := some "c1_4000_51D11111", source_central := none,
    edge_id := some "e1", plate_id := some "51D11111",
    plate_view := some "51D-111.11", entry_time := some "2025-12-02 08:00:00",
    entry_camera_id := some 1, entry_camera_name := some "Cam vao",
    entry_confidence := some 1, entry_source := some "ocr", exit_time := none,
    exit_camera_id := none, exit_camera_name := none, exit_confidence := none,
    exit_source := none, duration := none, fee := 0, status := "IN",
    sync_status := "LOCAL", last_location := none, last_location_time := none,
    is_anomaly := 0, created_at := 1, updated_at := none }

/-- The C9 witness store. -/
def auditStore : Store := { history := [auditRow], changes := [], nextId := 8 }

/-- The concrete operation sequence of the C2 witness: a local ENTRY, a
conflicting peer envelope for the same plate, then a local EXIT. -/
def invariantWitnessOps : List ParkingOp :=
  [ .entry "29A12345" "29A-123.45" (some 1) (some "Cam vao") 1 (some "ocr")
      (some "c1_1000_29A12345") (some "e1") "2025-12-02 10:00:00",
    .pending
      { source_central := some "c2", timestamp := 1200,
        event_id := some "c2_1200_29A12345",
        data := { plate_id := some "29A12345", plate_view := some "29A-123.45",
                  edge_id := some "e9", camera_type := some "ENTRY",
                  entry_time := some "2025-12-02 10:00:02" } },
    .exit "29A12345" (some 2) (some "Cam ra") 1 (some "ocr")
      "2025-12-02 11:30:00" 1 25000 ]

/-! # Claims -/

/-- Claim C10: `event_exists(event_id)` returns `False` whenever the argument
is null — the parameter binds SQL `NULL` and `event_id = NULL` matches no
row, even a row whose `event_id` column is itself `NULL` — and the edge
channel's dedup guard short-circuits on a missing `event_id`, so events
without an `event_id` never participate in event-id deduplication. -/
theorem null_event_id_never_dedups :
    (∀ s : Store, event_exists s none = false) ∧
    (∀ s : Store, edge_dedup_guard s none = false) ∧
    (∀ s : Store, ∀ e : String,
      event_exists s (some e) =
        s.history.any (fun r => r.event_id == some e)) := by
  refine ⟨fun s => rfl, fun s => ?_, fun s e => rfl⟩
  simp [edge_dedup_guard, pyTruthy]

/-- Claim C1: Failing-input evaluation: both event ids carry parsable unix-ms
timestamps and the incoming one is strictly older, yet
`handle_vehicle_entry_pending` leaves the store unchanged — the local row
survives and the older incoming event is never inserted.  The cause:
`find_vehicle_in_parking` (database.py:660) SELECTs a column list without
`event_id`, so `_resolve_conflict` reads `existing_entry.get("event_id") =
None` and takes its keep-local branch, contradicting its own documented
older-timestamp-wins strategy. -/
theorem conflict_resolution_never_fires :
    parse_timestamp_from_event_id conflictMessage.event_id = some 1000 ∧
    parse_timestamp_from_event_id conflictLocalRow.event_id = some 1200 ∧
    1000 < 1200 ∧
    handle_vehicle_entry_pending conflictStore conflictMessage = conflictStore ∧
    event_exists (handle_vehicle_entry_pending conflictStore conflictMessage)
      conflictMessage.event_id = false := by
  refine ⟨by decide, by decide, by decide, by decide, by decide⟩

/-- Claim C8: Failing-input evaluation: a second ENTRY for a plate with a live
`'IN'` row is rejected with `already_inside` and inserts nothing — that part
of the claim holds — but the error payload's `event_id` is `None`, not the
existing row's `"c1_1000_29A12345"`: `_process_entry` reads
`existing.get("event_id")` from the `find_vehicle_in_parking` dict, which
has no `event_id` key. -/
theorem already_inside_payload_has_no_event_id :
    insideRow.event_id = some "c1_1000_29A12345" ∧
    (process_entry insideStore "29A12345" "29A-123.45" (some 2)
        (some "Cam vao") 1 (some "ocr") (some "c1_2000_29A12345") (some "e1")
        "2025-12-02 11:00:00").2.success = false ∧
    (process_entry insideStore "29A12345" "29A-123.45" (some 2)
        (some "Cam vao") 1 (some "ocr") (some "c1_2000_29A12345") (some "e1")
        "2025-12-02 11:00:00").2.already_inside = true ∧
    (process_entry insideStore "29A12345" "29A-123.45" (some 2)
        (some "Cam vao") 1 (some "ocr") (some "c1_2000_29A12345") (some "e1")
        "2025-12-02 11:00:00").2.event_id = none ∧
    (process_entry insideStore "29A12345" "29A-123.45" (some 2)
        (some "Cam vao") 1 (some "ocr") (some "c1_2000_29A12345") (some "e1")
        "2025-12-02 11:00:00").1 = insideStore := by
  refine ⟨by decide, by decide, by decide, by decide, by decide⟩

/-- Claim C4: Failing-input evaluation: an UPDATE arriving from edge `edge-1`
(still connected, alongside `edge-2`) is broadcast by `broadcast_to_edges`
to **both** connected edges — including `edge-1`, the channel it arrived on.
`broadcast_to_edges` iterates the whole `edge_websocket_connections` map and
has no originating-edge parameter, despite the source's own comments
(`app.py:2131`, `app.py:2170`) promising no echo to the sender. -/
theorem edge_broadcast_echoes_to_origin :
    (handle_edge_update_event updateTargetStore ["edge-1", "edge-2"] 42
      (some "c1_3000_30G56789") "30G66789" "30G-667.89"
      "2025-12-02 12:00:00").2 =
      [("edge-1", updateBroadcastEvent), ("edge-2", updateBroadcastEvent)] ∧
    ("edge-1", updateBroadcastEvent) ∈
      (handle_edge_update_event updateTargetStore ["edge-1", "edge-2"] 42
        (some "c1_3000_30G56789") "30G66789" "30G-667.89"
        "2025-12-02 12:00:00").2 ∧
    (∀ connections : List String, ∀ ev : EdgeUpdateEvent,
      broadcast_to_edges connections ev = connections.map (fun e => (e, ev))) := by
  refine ⟨by decide, by decide, fun connections ev => rfl⟩

/-! ## C3: idempotence of the pending handler -/

/-- Fact about `_resolve_conflict` can never mutate the store: the dict it receives
carries no `event_id` key, so it always takes the keep-local branch. -/
theorem resolve_conflict_keeps_store (s : Store) (ex : FoundVehicle)
    (msg : P2PMessage) : resolve_conflict s ex msg = s := rfl

/-- A store in which the envelope's event id is already present is left
unchanged by the handler. -/
theorem handle_pending_of_event_exists (s : Store) (msg : P2PMessage)
    (h : event_exists s msg.event_id = true) :
    handle_vehicle_entry_pending s msg = s := by
  simp [handle_vehicle_entry_pending, h]

/-- Applying `handle_vehicle_entry_pending` twice is the same as applying it
once: the insert branch makes `event_exists` true, and the two non-mutating
branches recompute themselves. -/
theorem handle_pending_idem (s : Store) (msg : P2PMessage) (e : String)
    (he : msg.event_id = some e) :
    handle_vehicle_entry_pending (handle_vehicle_entry_pending s msg) msg =
      handle_vehicle_entry_pending s msg := by
  cases hex : event_exists s msg.event_id with
  | true => simp [handle_pending_of_event_exists s msg hex]
  | false =>
    rcases hfind : find_vehicle_in_parking s msg.data.plate_id with _ | ex
    · have h0 : handle_vehicle_entry_pending s msg =
          (add_vehicle_entry_p2p s msg.event_id msg.source_central
            msg.data.edge_id msg.data.plate_id msg.data.plate_view
            msg.data.entry_time none
            (some (pyStr msg.source_central ++ "/" ++ pyStr msg.data.edge_id)) 0
            (some "p2p_sync")).1 := by
        unfold handle_vehicle_entry_pending
        rw [hex, hfind]
        simp
      rcases hpd : msg.data.plate_id with _ | p
      · have h1 : handle_vehicle_entry_pending s msg = s := by
          rw [h0, hpd]
          simp [add_vehicle_entry_p2p]
        simp only [h1]
      · rcases hvw : msg.data.plate_view with _ | v
        · have h1 : handle_vehicle_entry_pending s msg = s := by
            rw [h0, hpd, hvw]
            simp [add_vehicle_entry_p2p]
          simp only [h1]
        · rcases het : msg.data.entry_time with _ | et
          · have h1 : handle_vehicle_entry_pending s msg = s := by
              rw [h0, hpd, hvw, het]
              simp [add_vehicle_entry_p2p]
            simp only [h1]
          · have h2 : event_exists (handle_vehicle_entry_pending s msg)
                msg.event_id = true := by
              rw [h0, hpd, hvw, het, he]
              simp [add_vehicle_entry_p2p, event_exists, List.any_append, he]
            exact handle_pending_of_event_exists _ msg h2
    · have h1 : handle_vehicle_entry_pending s msg = s := by
        unfold handle_vehicle_entry_pending
        rw [hex, hfind]
        simp [resolve_conflict_keeps_store]
      simp only [h1]

/-- Claim C3, amended: For every `VEHICLE_ENTRY_PENDING` envelope with a
non-null `event_id` and every starting store, applying the handler `n ≥ 1`
times yields the same store as applying it once.  (The dedup mechanism of
the original claim only covers the insert branch; the skip and conflict
branches leave the store unchanged — with `EventExists` possibly still false
— and later applications re-run the same non-mutating branch.) -/
theorem pending_handler_idempotent (s : Store) (msg : P2PMessage) (e : String)
    (he : msg.event_id = some e) (n : Nat) (hn : 1 ≤ n) :
    (fun t => handle_vehicle_entry_pending t msg)^[n] s =
      handle_vehicle_entry_pending s msg := by
  induction n with
  | zero => omega
  | succ m ih =>
    rcases Nat.lt_or_ge m 1 with hm | hm
    · interval_cases m
      simp
    · rw [Function.iterate_succ_apply', ih hm]
      exact handle_pending_idem s msg e he

/-- Claim C3, counterexample: Starting from a store with a conflicting live
row, the first application of the handler takes the conflict branch and
inserts nothing, so `EventExists(event_id)` is still false afterwards —
refuting the claimed mechanism "after the first application
`EventExists(event_id)` is true".  (The store is nevertheless unchanged, so
the N-fold equality itself survives.) -/
theorem pending_replay_leaves_event_unknown :
    event_exists (handle_vehicle_entry_pending replayStore replayMessage)
      replayMessage.event_id = false ∧
    handle_vehicle_entry_pending replayStore replayMessage = replayStore :=
  ⟨by decide, by decide⟩

/-- Witness for C3: the amended theorem applied at a concrete envelope,
store and `n = 3`. -/
theorem pending_handler_idempotent_witness :
    replayMessage.event_id = some "c8_1500_51B67890" ∧ 1 ≤ 3 ∧
    (fun t => handle_vehicle_entry_pending t replayMessage)^[3] emptyStore =
      handle_vehicle_entry_pending emptyStore replayMessage :=
  ⟨rfl, by decide,
    pending_handler_idempotent emptyStore replayMessage "c8_1500_51B67890" rfl 3
      (by decide)⟩

/-! ## C9: the admin-update round trip -/

/-- Updating the plate fields of the rows with id `i` commutes with
`find?`-by-id: the update does not change any row's `id`. -/
theorem find?_plate_update (l : List HistoryRow) (i : Nat) (p v now : String)
    (r : HistoryRow) (h : l.find? (fun row => row.id == i) = some r) :
    (l.map (fun row =>
        if row.id == i then
          { row with
            plate_id := some p, plate_view := some v,
            updated_at := some now }
        else row)).find? (fun row => row.id == i) =
      some { r with
        plate_id := some p, plate_view := some v,
        updated_at := some now } := by
  have hr : (r.id == i) = true := by
    have hp := List.find?_some h
    simpa using hp
  rw [List.find?_map]
  have hpred : ((fun row : HistoryRow => row.id == i) ∘ (fun row =>
      if row.id == i then
        { row with
          plate_id := some p, plate_view := some v,
          updated_at := some now }
      else row)) = fun row : HistoryRow => row.id == i := by
    funext row
    by_cases hrow : (row.id == i) = true
    · rw [Function.comp_apply, if_pos hrow]
    · rw [Function.comp_apply, if_neg hrow]
  rw [hpred, h, Option.map_some']
  rw [if_pos hr]

/-- Claim C9: For every existing history row with id `i` and every pair
`(p, v)`, `update_history_entry(i, p, v)` returns `True`, a subsequent read
of row `i` returns `plate_id = p` and `plate_view = v`, and exactly one new
`history_changes` row of type `'UPDATE'` is appended whose
`old_plate_id`/`old_plate_view` and `old_data`/`new_data` snapshots are the
row's state before and after the update. -/
theorem update_history_entry_roundtrip (s : Store) (i : Nat) (p v now : String)
    (r : HistoryRow) (h : s.history.find? (fun row => row.id == i) = some r) :
    (update_history_entry s i p v now).2 = true ∧
    get_history_entry_by_id (update_history_entry s i p v now).1 i =
      some { r with
        plate_id := some p, plate_view := some v,
        updated_at := some now } ∧
    (update_history_entry s i p v now).1.changes =
      s.changes ++ [{
        history_id := i, change_type := "UPDATE",
        old_plate_id := r.plate_id, old_plate_view := r.plate_view,
        new_plate_id := some p, new_plate_view := some v,
        old_data := some r,
        new_data := some { r with
          plate_id := some p, plate_view := some v,
          updated_at := some now },
        changed_by := "system" }] := by
  have hmap := find?_plate_update s.history i p v now r h
  unfold update_history_entry get_history_entry_by_id
  rw [h]
  simp only [hmap]
  exact ⟨trivial, trivial, trivial⟩

/-- Witness for C9: the round-trip theorem applied to a concrete store, row
and plate pair. -/
theorem update_history_entry_roundtrip_witness :
    auditStore.history.find? (fun row => row.id == 7) = some auditRow ∧
    ((update_history_entry auditStore 7 "51D22222" "51D-222.22"
        "2025-12-02 09:00:00").2 = true ∧
      get_history_entry_by_id (update_history_entry auditStore 7 "51D22222"
          "51D-222.22" "2025-12-02 09:00:00").1 7 =
        some { auditRow with
          plate_id := some "51D22222",
          plate_view := some "51D-222.22",
          updated_at := some "2025-12-02 09:00:00" } ∧
      (update_history_entry auditStore 7 "51D22222" "51D-222.22"
          "2025-12-02 09:00:00").1.changes =
        auditStore.changes ++ [{
          history_id := 7, change_type := "UPDATE",
          old_plate_id := auditRow.plate_id,
          old_plate_view := auditRow.plate_view,
          new_plate_id := some "51D22222", new_plate_view := some "51D-222.22",
          old_data := some auditRow,
          new_data := some { auditRow with
            plate_id := some "51D22222",
            plate_view := some "51D-222.22",
            updated_at := some "2025-12-02 09:00:00" },
          changed_by := "system" }]) :=
  ⟨rfl, update_history_entry_roundtrip auditStore 7 "51D22222" "51D-222.22"
    "2025-12-02 09:00:00" auditRow rfl⟩

/-! ## C2: at most one live `'IN'` row per plate -/

/-- A `LIMIT 1` scan that has already seen a row never comes back empty. -/
theorem foldl_pickNewer_isSome (newer : HistoryRow → HistoryRow → Bool)
    (l : List HistoryRow) (b : HistoryRow) :
    (l.foldl (pickNewer newer) (some b)).isSome = true := by
  induction l generalizing b with
  | nil => rfl
  | cons r t ih =>
    rw [List.foldl_cons]
    show (t.foldl (pickNewer newer) (if newer b r then some r else some b)).isSome = true
    by_cases h : newer b r = true
    · rw [if_pos h]; exact ih r
    · rw [if_neg h]; exact ih b

/-- A `LIMIT 1` scan returns nothing exactly on the empty candidate set. -/
theorem foldl_pickNewer_eq_none (newer : HistoryRow → HistoryRow → Bool)
    (l : List HistoryRow) (h : l.foldl (pickNewer newer) none = none) :
    l = [] := by
  cases l with
  | nil => rfl
  | cons r t =>
    exfalso
    rw [List.foldl_cons] at h
    have hs := foldl_pickNewer_isSome newer t r
    rw [show pickNewer newer none r = some r from rfl] at h
    rw [h] at hs
    exact Bool.noConfusion hs

/-- Fact about `sqlEq` against a non-null parameter is plain equality of option
values. -/
theorem sqlEq_some (a : Option String) (p : String) :
    sqlEq a (some p) = (a == some p) := by
  cases a <;> rfl

/-- When `find_vehicle_in_parking` reports the plate absent, the store holds
no live `'IN'` row for it at all. -/
theorem liveInCount_eq_zero_of_find_none (s : Store) (p : String)
    (h : find_vehicle_in_parking s (some p) = none) : liveInCount p s = 0 := by
  unfold find_vehicle_in_parking at h
  rw [Option.map_eq_none'] at h
  have hnil := foldl_pickNewer_eq_none _ _ h
  rw [List.filter_eq_nil_iff] at hnil
  unfold liveInCount
  rw [List.countP_eq_zero]
  intro r hr hlive
  apply hnil r hr
  unfold isLiveRow at hlive
  rw [sqlEq_some]
  simp only [Bool.and_eq_true] at hlive ⊢
  exact ⟨hlive.1.1, hlive.1.2⟩

/-- Appending one row adds at most one live row. -/
theorem liveInCount_append_one (p : String) (l : List HistoryRow)
    (row : HistoryRow) :
    (l ++ [row]).countP (isLiveRow p) ≤ l.countP (isLiveRow p) + 1 := by
  rw [List.countP_append]
  have : [row].countP (isLiveRow p) ≤ 1 := by
    rw [List.countP_cons]
    simp [List.countP_nil]
    split <;> omega
  omega

/-- Appending one row to a store adds at most one live row. -/
theorem liveInCount_store_append (p : String) (s : Store) (row : HistoryRow)
    (nid : Nat) :
    liveInCount p { s with history := s.history ++ [row], nextId := nid } ≤
      liveInCount p s + 1 := by
  unfold liveInCount
  exact liveInCount_append_one p s.history row

/-- Completing an exit never increases the number of live rows of any
plate. -/
theorem liveInCount_update_vehicle_exit_le (s : Store) (q : String)
    (exit_time : String) (camera_id : Option Int) (camera_name : Option String)
    (confidence : ℚ) (source : Option String) (duration : String) (fee : ℚ)
    (now : String) (p : String) :
    liveInCount p (update_vehicle_exit s q exit_time camera_id camera_name
      confidence source duration fee now).1 ≤ liveInCount p s := by
  unfold update_vehicle_exit
  rcases htarget : selectNewestByEntryTimeCreated (s.history.filter (fun r =>
      sqlEq r.plate_id (some q) && r.status == "IN" && r.exit_time == none))
    with _ | target
  · simp only [htarget]
    exact le_refl _
  · simp only [htarget]
    unfold liveInCount
    rw [List.countP_map]
    apply List.countP_mono_left
    intro r _ hlive
    by_cases hid : (r.id == target.id) = true
    · exfalso
      simp only [Function.comp_apply, hid, if_pos] at hlive
      unfold isLiveRow at hlive
      simp at hlive
    · simpa only [Function.comp_apply, hid, Bool.false_eq_true,
        not_false_eq_true, if_neg] using hlive

/-- Each of the three operations preserves "at most one live `'IN'` row for
plate `p`". -/
theorem liveInCount_applyOp (p : String) (s : Store) (op : ParkingOp)
    (hop : op.plate = some p) (hs : liveInCount p s ≤ 1) :
    liveInCount p (applyOp s op) ≤ 1 := by
  cases op with
  | entry plate_id plate_view camera_id camera_name confidence source event_id edge_id now =>
    have hpp : plate_id = p := by simpa [ParkingOp.plate] using hop
    subst hpp
    simp only [applyOp]
    unfold process_entry
    rcases hfind : find_vehicle_in_parking s (some plate_id) with _ | ex
    · have h0 := liveInCount_eq_zero_of_find_none s plate_id hfind
      simp only [hfind]
      unfold add_vehicle_entry
      split
      · refine le_trans (liveInCount_store_append plate_id s _ _) ?_
        omega
      · refine le_trans (liveInCount_store_append plate_id s _ _) ?_
        omega
    · simp only [hfind]
      exact hs
  | exit plate_id camera_id camera_name confidence source now feeBase feePerHour =>
    have hpp : plate_id = p := by simpa [ParkingOp.plate] using hop
    subst hpp
    simp only [applyOp]
    unfold process_exit
    rcases hfind : find_vehicle_in_parking s (some plate_id) with _ | ex
    · simp only [hfind]
      exact hs
    · simp only [hfind]
      rcases het : ex.entry_time with _ | entryTime
      · exact hs
      · simp only []
        rcases hfee : calculate_fee feeBase feePerHour entryTime now with _ | df
        · simp only [hfee]
          exact hs
        · rcases df with ⟨duration, fee⟩
          simp only [hfee]
          exact le_trans (liveInCount_update_vehicle_exit_le s plate_id now
            camera_id camera_name confidence source duration fee now plate_id) hs
  | pending message =>
    have hop2 : message.data.plate_id = some p := by
      simpa [ParkingOp.plate] using hop
    simp only [applyOp]
    unfold handle_vehicle_entry_pending
    cases hex : event_exists s message.event_id
    · simp only [Bool.false_eq_true, if_false]
      rcases hfind : find_vehicle_in_parking s message.data.plate_id with _ | ex
      · simp only [hfind]
        rw [hop2] at hfind
        have h0 := liveInCount_eq_zero_of_find_none s p hfind
        unfold add_vehicle_entry_p2p
        rw [hop2]
        rcases hvw : message.data.plate_view with _ | v
        · rcases het : message.data.entry_time with _ | et
          · exact hs
          · exact hs
        · rcases het : message.data.entry_time with _ | et
          · exact hs
          · refine le_trans (liveInCount_store_append p s _ _) ?_
            omega
      · simp only [hfind, resolve_conflict_keeps_store]
        exact hs
    · simpa using hs

/-- Claim C2: For every sequence of local ENTRY events, local EXIT events and
peer `VEHICLE_ENTRY_PENDING` envelopes for a single `plate_id`, applied in
any order starting from the empty store, after every operation (i.e. after
every prefix of the sequence) at most one history row for that plate has
`status = 'IN'` and `exit_time = NULL`. -/
theorem at_most_one_live_in_row (p : String) (ops : List ParkingOp)
    (hops : ∀ op ∈ ops, op.plate = some p) (pre : List ParkingOp)
    (hpre : pre <+: ops) :
    liveInCount p (applyOps emptyStore pre) ≤ 1 := by
  have hpres : ∀ op ∈ pre, op.plate = some p := fun op hop =>
    hops op (hpre.sublist.subset hop)
  clear hops hpre
  suffices h : ∀ (l : List ParkingOp) (s : Store),
      (∀ op ∈ l, op.plate = some p) → liveInCount p s ≤ 1 →
        liveInCount p (applyOps s l) ≤ 1 from
    h pre emptyStore hpres (by simp [liveInCount, emptyStore])
  intro l
  induction l with
  | nil => intro s _ hs; exact hs
  | cons op t ih =>
    intro s hl hs
    exact ih (applyOp s op) (fun o ho => hl o (List.mem_cons_of_mem _ ho))
      (liveInCount_applyOp p s op (hl op (List.mem_cons_self _ _)) hs)

/-- Witness for C2: the invariant theorem applied to the concrete
entry/pending/exit sequence. -/
theorem at_most_one_live_in_row_witness :
    (∀ op ∈ invariantWitnessOps, op.plate = some "29A12345") ∧
    invariantWitnessOps <+: invariantWitnessOps ∧
    liveInCount "29A12345" (applyOps emptyStore invariantWitnessOps) ≤ 1 :=
  ⟨by decide, List.prefix_refl _,
    at_most_one_live_in_row "29A12345" invariantWitnessOps (by decide)
      invariantWitnessOps (List.prefix_refl _)⟩

/-! ## C7: the fee formula -/

/-- Claim C7: For every parsable entry/exit timestamp pair, the computed fee
is `0` when the duration in hours is at most `fee_base` and
`ceil(duration_hours - fee_base) * fee_per_hour` otherwise; and the concrete
boundary case — entry `2025-12-02 10:00:00`, exit `2025-12-02 11:30:00`,
defaults `fee_base = 0.5`, `fee_per_hour = 25000` — yields fee `25000` with
duration string `"1 giờ 30 phút"`. -/
theorem fee_is_zero_or_ceil (fb fph : ℚ) (s1 s2 : String) (d1 d2 : DateTime)
    (h1 : parseDateTime s1 = some d1) (h2 : parseDateTime s2 = some d2) :
    ((calculate_fee fb fph s1 s2).map (fun r => r.2) =
      some (if ((((d2.toSecs : ℤ) - (d1.toSecs : ℤ) : ℤ) : ℚ) / 3600) ≤ fb then 0
        else (⌈((((d2.toSecs : ℤ) - (d1.toSecs : ℤ) : ℤ) : ℚ) / 3600) - fb⌉ : ℚ) * fph)) ∧
    calculate_fee (1/2) 25000 "2025-12-02 10:00:00" "2025-12-02 11:30:00" =
      some ("1 giờ 30 phút", 25000) := by
  constructor
  · unfold calculate_fee
    rw [h1, h2]
    simp only [Option.map_some']
  · have hp1 : parseDateTime "2025-12-02 10:00:00" =
        some (⟨2025, 12, 2, 10, 0, 0⟩ : DateTime) := by decide
    have hp2 : parseDateTime "2025-12-02 11:30:00" =
        some (⟨2025, 12, 2, 11, 30, 0⟩ : DateTime) := by decide
    unfold calculate_fee
    rw [hp1, hp2]
    have hsecs : ((DateTime.toSecs ⟨2025, 12, 2, 11, 30, 0⟩ : ℤ) -
        (DateTime.toSecs ⟨2025, 12, 2, 10, 0, 0⟩ : ℤ)) = 5400 := by decide
    simp only [hsecs]
    have hdh : ((5400 : ℤ) : ℚ) / 3600 = 3 / 2 := by norm_num
    rw [hdh]
    have hint1 : pyInt (3 / 2) = 1 := by
      unfold pyInt
      rw [if_neg (by norm_num)]
      norm_num
    have hint2 : pyInt ((3 / 2 - ((1 : ℤ) : ℚ)) * 60) = 30 := by
      have : ((3 : ℚ) / 2 - ((1 : ℤ) : ℚ)) * 60 = 30 := by norm_num
      rw [this]
      unfold pyInt
      rw [if_neg (by norm_num)]
      norm_num
    rw [hint1, hint2]
    have hfee : (if (3 : ℚ) / 2 ≤ 1 / 2 then (0 : ℚ)
        else (⌈(3 : ℚ) / 2 - 1 / 2⌉ : ℚ) * 25000) = 25000 := by
      rw [if_neg (by norm_num)]
      norm_num
    rw [hfee]
    rfl

/-- Witness for C7: the fee theorem applied at the boundary-scenario
timestamps. -/
theorem fee_is_zero_or_ceil_witness :
    (parseDateTime "2025-12-02 10:00:00" =
      some (⟨2025, 12, 2, 10, 0, 0⟩ : DateTime)) ∧
    (parseDateTime "2025-12-02 11:30:00" =
      some (⟨2025, 12, 2, 11, 30, 0⟩ : DateTime)) ∧
    (((calculate_fee (1/2) 25000 "2025-12-02 10:00:00" "2025-12-02 11:30:00").map
        (fun r => r.2) =
      some (if ((((DateTime.toSecs ⟨2025, 12, 2, 11, 30, 0⟩ : ℤ) -
            (DateTime.toSecs ⟨2025, 12, 2, 10, 0, 0⟩ : ℤ) : ℤ) : ℚ) / 3600) ≤ 1/2
          then 0
        else (⌈((((DateTime.toSecs ⟨2025, 12, 2, 11, 30, 0⟩ : ℤ) -
            (DateTime.toSecs ⟨2025, 12, 2, 10, 0, 0⟩ : ℤ) : ℤ) : ℚ) / 3600) -
          1/2⌉ : ℚ) * 25000)) ∧
    calculate_fee (1/2) 25000 "2025-12-02 10:00:00" "2025-12-02 11:30:00" =
      some ("1 giờ 30 phút", 25000)) :=
  ⟨by decide, by decide,
    fee_is_zero_or_ceil (1/2) 25000 "2025-12-02 10:00:00" "2025-12-02 11:30:00"
      _ _ (by decide) (by decide)⟩

/-! ## C5 / C6: the voting tracker -/

/-- Folding the key-collection step over copies of an already-collected key
changes nothing. -/
theorem keys_foldl_replicate (x : String) (m : Nat) (acc : List String)
    (hacc : acc.contains x = true) :
    (List.replicate m x).foldl
      (fun acc y => if acc.contains y then acc else acc ++ [y]) acc = acc := by
  induction m generalizing acc with
  | zero => rfl
  | succ k ih =>
    rw [List.replicate_succ, List.foldl_cons, if_pos hacc]
    exact ih acc hacc

/-- Fact about `Counter(replicate n x).most_common(1)[0] = (x, n)` for `n ≥ 1`. -/
theorem mostCommon_replicate (x : String) (n : Nat) (hn : 1 ≤ n) :
    mostCommon (List.replicate n x) = some (x, n) := by
  obtain ⟨m, rfl⟩ : ∃ m, n = m + 1 := ⟨n - 1, by omega⟩
  unfold mostCommon
  rw [List.replicate_succ, List.foldl_cons]
  rw [show (if ([] : List String).contains x then ([] : List String)
      else [] ++ [x]) = [x] from rfl]
  rw [keys_foldl_replicate x m [x] (by simp)]
  rw [List.foldl_cons, List.foldl_nil]
  simp [List.count_cons_self, List.count_replicate_self]

/-- Fact about `_select_best_format` on `n ≥ 1` copies of one display form returns that
form. -/
theorem select_best_format_replicate (x : String) (n : Nat) (hn : 1 ≤ n) :
    select_best_format (List.replicate n x) = some x := by
  unfold select_best_format
  rw [mostCommon_replicate x n hn]
  simp only []
  by_cases hsep : (strHasChar x '-' || strHasChar x '.') = true
  · rw [if_pos hsep]
  · rw [if_neg hsep]
    have hor : (strHasChar x '-' || strHasChar x '.') = false := by
      simpa using hsep
    have hdash : strHasChar x '-' = false := (Bool.or_eq_false_iff.mp hor).1
    have hdot : strHasChar x '.' = false := (Bool.or_eq_false_iff.mp hor).2
    have hfv : find_formatted_version x (List.replicate n x) = none := by
      unfold find_formatted_version
      simp only []
      rw [List.filter_replicate, if_pos (by simp)]
      rw [List.filter_replicate, if_neg (by rw [hdash]; simp)]
      rw [List.filter_replicate, if_neg (by rw [hdash]; simp)]
      rw [List.filter_replicate, if_neg (by rw [hdot]; simp)]
    rw [hfv]

/-- A state with fewer votes than `min_votes` cannot early-stop. -/
theorem check_early_stop_short (pv : PlateVotes)
    (h : pv.votes.length < pv.min_votes) : check_early_stop pv = none := by
  unfold check_early_stop
  rw [if_pos h]

/-- Early stop on a bucket whose votes are all the same text `x` at times
`ts`, once `min_votes ≤ ts.length`. -/
theorem check_early_stop_uniform (w thr fs : ℚ) (minV : Nat) (x : String)
    (ts : List ℚ) (hmin : 1 ≤ minV) (hlen : minV ≤ ts.length) :
    check_early_stop
      { window_seconds := w, min_votes := minV, similarity_threshold := thr,
        votes := ts.map (fun t => (x, t)), first_seen := fs,
        finalized := false, final_result := none } = some x := by
  unfold check_early_stop
  rw [if_neg (by simp; omega)]
  have hnorm : (ts.map (fun t => (x, t))).map (fun v => alnumUpper v.1) =
      List.replicate ts.length (alnumUpper x) := by
    rw [List.map_map]
    exact List.map_const' ts (alnumUpper x)
  rw [hnorm]
  simp only []
  rw [mostCommon_replicate _ ts.length (le_trans hmin hlen)]
  simp only []
  rw [if_pos (by simpa using hlen)]
  have hfilter : (ts.map (fun t => (x, t))).filter
      (fun v => alnumUpper v.1 == alnumUpper x) = ts.map (fun t => (x, t)) := by
    rw [List.filter_eq_self]
    intro a ha
    rcases List.mem_map.mp ha with ⟨t, _, rfl⟩
    simp
  rw [hfilter]
  have hmap : (ts.map (fun t => (x, t))).map (fun v => v.1) =
      List.replicate ts.length x := by
    rw [List.map_map]
    exact List.map_const' ts x
  rw [hmap]
  exact select_best_format_replicate x ts.length (le_trans hmin hlen)

/-- A nonempty string is Python-truthy. -/
theorem pyTruthy_some (x : String) (hx : x ≠ "") : pyTruthy (some x) = true := by
  have hd : x.data.isEmpty = false := by
    cases x with
    | mk data =>
      cases data with
      | nil => exact absurd rfl hx
      | cons c cs => rfl
  unfold pyTruthy
  simp [hd]

/-- The window eviction keeps every vote that is within `w` of the current
time. -/
theorem filter_window_keep (votes : List (String × ℚ)) (t w : ℚ)
    (h : ∀ v ∈ votes, t - w ≤ v.2) :
    votes.filter (fun v => decide (t - w ≤ v.2)) = votes := by
  rw [List.filter_eq_self]
  intro a ha
  exact decide_eq_true (h a ha)

/-- Fact about `add_vote` on an unfinalized bucket whose eviction step keeps every
vote, written with the vote list already appended. -/
theorem add_vote_unfinalized (ratio : String → String → ℚ) (pv : PlateVotes)
    (x : String) (t : ℚ) (hfin : pv.finalized = false)
    (hkeep : ∀ v ∈ pv.votes ++ [(x, t)], t - pv.window_seconds ≤ v.2) :
    add_vote ratio pv x t =
      (let pv1 := { pv with votes := pv.votes ++ [(x, t)] }
       let result := check_early_stop pv1
       if pyTruthy result then
         ({ pv1 with finalized := true, final_result := result }, result)
       else if pv1.votes.length ≥ pv1.min_votes then
         let result2 := get_consensus ratio pv1
         if pyTruthy result2 then
           ({ pv1 with finalized := true, final_result := result2 }, result2)
         else (pv1, none)
       else (pv1, none)) := by
  unfold add_vote
  rw [hfin]
  simp only [Bool.false_eq_true, if_false]
  rw [filter_window_keep _ t pv.window_seconds hkeep]

/-- Feeding `minV` copies of a fixed non-empty text, all within the window,
into a fresh bucket with `done` votes already present: the run returns
`None` until the bucket holds `minV` votes and commits the text exactly
then. -/
theorem add_votes_uniform (ratio : String → String → ℚ) (w thr fs : ℚ)
    (minV : Nat) (x : String) (hx : x ≠ "") :
    ∀ (todo done : List ℚ),
      (∀ a ∈ done ++ todo, ∀ b ∈ done ++ todo, a - b ≤ w) →
      done.length + todo.length = minV →
      todo ≠ [] →
      (add_votes ratio
        { window_seconds := w, min_votes := minV, similarity_threshold := thr,
          votes := done.map (fun t => (x, t)), first_seen := fs,
          finalized := false, final_result := none }
        (todo.map (fun t => (x, t)))).2 =
      List.replicate (todo.length - 1) none ++ [some x] := by
  intro todo
  induction todo with
  | nil => intro done _ _ habs; exact absurd rfl habs
  | cons t rest ih =>
    intro done hwin hlen _
    have htmem : t ∈ done ++ t :: rest := by simp
    have hkeep : ∀ v ∈ (done.map (fun u => (x, u))) ++ [(x, t)],
        t - w ≤ v.2 := by
      intro v hv
      rcases List.mem_append.mp hv with hv | hv
      · rcases List.mem_map.mp hv with ⟨u, hu, rfl⟩
        have huw := hwin t htmem u (by simp [hu])
        exact (show t - w ≤ u by linarith)
      · rcases List.mem_singleton.mp hv with rfl
        have huw := hwin t htmem t htmem
        exact (show t - w ≤ t by linarith)
    have hvotes : (done.map (fun u => (x, u))) ++ [(x, t)] =
        (done ++ [t]).map (fun u => (x, u)) := by
      rw [List.map_append]
      rfl
    rw [List.map_cons]
    simp only [add_votes]
    rw [add_vote_unfinalized ratio _ x t rfl (by simpa using hkeep)]
    simp only [hvotes]
    cases rest with
    | nil =>
      have hlen1 : (done ++ [t]).length = minV := by
        simp at hlen ⊢
        omega
      have hes : check_early_stop
          { window_seconds := w, min_votes := minV,
            similarity_threshold := thr,
            votes := (done ++ [t]).map (fun u => (x, u)), first_seen := fs,
            finalized := false, final_result := none } = some x := by
        have hminV : 1 ≤ minV := by simp at hlen; omega
        exact check_early_stop_uniform w thr fs minV x (done ++ [t]) hminV
          (le_of_eq hlen1.symm)
      simp only [hes, pyTruthy_some x hx, if_true]
      simp [add_votes]
    | cons r rest2 =>
      have hshort : done.length + 1 < minV := by
        simp at hlen
        omega
      have hes : check_early_stop
          { window_seconds := w, min_votes := minV,
            similarity_threshold := thr,
            votes := (done ++ [t]).map (fun u => (x, u)), first_seen := fs,
            finalized := false, final_result := none } = none := by
        apply check_early_stop_short
        simpa using hshort
      simp only [hes]
      rw [show pyTruthy none = false from rfl]
      simp only [Bool.false_eq_true, if_false]
      rw [if_neg (by simp; omega)]
      have ihx := ih (done ++ [t])
        (by
          intro a ha b hb
          rw [List.append_assoc, List.singleton_append] at ha hb
          exact hwin a ha b hb)
        (by simp at hlen ⊢; omega)
        (by simp)
      rcases hrun : add_votes ratio
          { window_seconds := w, min_votes := minV, similarity_threshold := thr,
            votes := (done ++ [t]).map (fun u => (x, u)), first_seen := fs,
            finalized := false, final_result := none }
          ((r :: rest2).map (fun u => (x, u))) with ⟨pv2, outs⟩
      have ihx2 : outs =
          List.replicate ((r :: rest2).length - 1) none ++ [some x] := by
        rw [hrun] at ihx
        exact ihx
      simp only [hrun]
      show none :: outs =
        List.replicate ((t :: r :: rest2).length - 1) none ++ [some x]
      rw [ihx2]
      simp [List.replicate_succ]

/-- Fact about `add_vote` when the early stop commits a non-empty plate. -/
theorem add_vote_commit_step (ratio : String → String → ℚ) (pv : PlateVotes)
    (x : String) (t : ℚ) (r : String) (hfin : pv.finalized = false)
    (hkeep : ∀ v ∈ pv.votes ++ [(x, t)], t - pv.window_seconds ≤ v.2)
    (hes : check_early_stop { pv with votes := pv.votes ++ [(x, t)] } = some r)
    (hr : r ≠ "") :
    add_vote ratio pv x t =
      ({ pv with
         votes := pv.votes ++ [(x, t)], finalized := true,
         final_result := some r }, some r) := by
  rw [add_vote_unfinalized ratio pv x t hfin hkeep]
  simp only [hes, pyTruthy_some r hr, if_true]

/-- Fact about `add_vote` when the early stop fails and the bucket is still short of
`min_votes`. -/
theorem add_vote_none_step (ratio : String → String → ℚ) (pv : PlateVotes)
    (x : String) (t : ℚ) (hfin : pv.finalized = false)
    (hkeep : ∀ v ∈ pv.votes ++ [(x, t)], t - pv.window_seconds ≤ v.2)
    (hes : check_early_stop { pv with votes := pv.votes ++ [(x, t)] } = none)
    (hshort : pv.votes.length + 1 < pv.min_votes) :
    add_vote ratio pv x t = ({ pv with votes := pv.votes ++ [(x, t)] }, none) := by
  rw [add_vote_unfinalized ratio pv x t hfin hkeep]
  simp only [hes]
  rw [show pyTruthy none = false from rfl]
  simp only [Bool.false_eq_true, if_false]
  rw [if_neg (by simp; omega)]

/-- A finalized bucket always returns its cached commit. -/
theorem add_vote_finalized_step (ratio : String → String → ℚ) (pv : PlateVotes)
    (x : String) (t : ℚ) (hfin : pv.finalized = true) :
    add_vote ratio pv x t = (pv, pv.final_result) := by
  unfold add_vote
  rw [hfin]
  simp

/-- The C6 scenario, with arbitrary arrival times inside the window and an
arbitrary similarity oracle: `"29A-179.90"`, `"29A17990"`, `"29A17990"` into
a fresh bucket with `min_votes = 2` produce `None`, then a commit of
`"29A-179.90"` on the **second** arrival, then the cached commit. -/
theorem two_vote_run (ratio : String → String → ℚ) (t1 t2 t3 : ℚ)
    (h12 : t1 ≤ t2) (h23 : t2 ≤ t3) (hwin : t3 - t1 ≤ 3/2) :
    (add_votes ratio (PlateVotes.init (3/2) 2 (17/20) t1)
      [("29A-179.90", t1), ("29A17990", t2), ("29A17990", t3)]).2 =
      [none, some "29A-179.90", some "29A-179.90"] := by
  have h1 : add_vote ratio (PlateVotes.init (3/2) 2 (17/20) t1)
      "29A-179.90" t1 =
      ({ window_seconds := 3/2, min_votes := 2, similarity_threshold := 17/20,
         votes := [("29A-179.90", t1)], first_seen := t1, finalized := false,
         final_result := none }, none) := by
    refine add_vote_none_step ratio _ "29A-179.90" t1 rfl ?_ ?_ ?_
    · intro v hv
      simp only [PlateVotes.init, List.nil_append, List.mem_singleton] at hv
      subst hv
      show t1 - (3/2 : ℚ) ≤ t1
      linarith
    · rfl
    · norm_num [PlateVotes.init]
  have h2 : add_vote ratio
      { window_seconds := 3/2, min_votes := 2, similarity_threshold := 17/20,
        votes := [("29A-179.90", t1)], first_seen := t1, finalized := false,
        final_result := none } "29A17990" t2 =
      ({ window_seconds := 3/2, min_votes := 2, similarity_threshold := 17/20,
         votes := [("29A-179.90", t1), ("29A17990", t2)], first_seen := t1,
         finalized := true, final_result := some "29A-179.90" },
       some "29A-179.90") := by
    refine add_vote_commit_step ratio _ "29A17990" t2 "29A-179.90" rfl ?_ ?_
      (by decide)
    · intro v hv
      simp only [List.cons_append, List.nil_append, List.mem_cons,
        List.not_mem_nil, or_false] at hv
      rcases hv with rfl | rfl
      · show t2 - (3/2 : ℚ) ≤ t1
        linarith
      · show t2 - (3/2 : ℚ) ≤ t2
        linarith
    · rfl
  have h3 : add_vote ratio
      { window_seconds := 3/2, min_votes := 2, similarity_threshold := 17/20,
        votes := [("29A-179.90", t1), ("29A17990", t2)], first_seen := t1,
        finalized := true, final_result := some "29A-179.90" } "29A17990" t3 =
      ({ window_seconds := 3/2, min_votes := 2, similarity_threshold := 17/20,
         votes := [("29A-179.90", t1), ("29A17990", t2)], first_seen := t1,
         finalized := true, final_result := some "29A-179.90" },
       some "29A-179.90") := by
    refine add_vote_finalized_step ratio _ "29A17990" t3 rfl
  simp only [add_votes]
  rw [h1]
  simp only []
  rw [h2]
  simp only []
  rw [h3]

/-- Claim C6, amended: With `min_votes = 2`, the votes `"29A-179.90"`,
`"29A17990"`, `"29A17990"` arriving within the window at one bucket commit
on the **second** arrival (the first two votes already share the normalized
value `29A17990`), with committed value `"29A-179.90"` — the preferred
display form — and the third arrival returns the cached committed value. -/
theorem voting_commits_on_second_arrival (ratio : String → String → ℚ)
    (t1 t2 t3 : ℚ) (h12 : t1 ≤ t2) (h23 : t2 ≤ t3) (hwin : t3 - t1 ≤ 3/2) :
    (add_votes ratio (PlateVotes.init (3/2) 2 (17/20) t1)
      [("29A-179.90", t1), ("29A17990", t2), ("29A17990", t3)]).2 =
      [none, some "29A-179.90", some "29A-179.90"] :=
  two_vote_run ratio t1 t2 t3 h12 h23 hwin

/-- Claim C6, counterexample: The claimed scenario evaluated at concrete
arrival times `0`, `0.4 s`, `0.8 s`: the second call to `add_vote` already
returns the committed `"29A-179.90"` — the commit does **not** fire on the
3rd arrival as the claim states (the 3rd call only replays the cached
value). -/
theorem voting_scenario_commits_before_third_arrival :
    (add_votes (fun _ _ => (0 : ℚ)) (PlateVotes.init (3/2) 2 (17/20) 0)
      [("29A-179.90", 0), ("29A17990", 2/5), ("29A17990", 4/5)]).2 =
      [none, some "29A-179.90", some "29A-179.90"] :=
  two_vote_run (fun _ _ => 0) 0 (2/5) (4/5) (by norm_num) (by norm_num)
    (by norm_num)

/-- Witness for C6: the amended theorem at concrete in-window times. -/
theorem voting_commits_on_second_arrival_witness :
    ((0 : ℚ) ≤ 1/5) ∧ ((1/5 : ℚ) ≤ 3/5) ∧ ((3/5 : ℚ) - 0 ≤ 3/2) ∧
    (add_votes (fun _ _ => (0 : ℚ)) (PlateVotes.init (3/2) 2 (17/20) 0)
      [("29A-179.90", 0), ("29A17990", 1/5), ("29A17990", 3/5)]).2 =
      [none, some "29A-179.90", some "29A-179.90"] :=
  ⟨by norm_num, by norm_num, by norm_num,
    voting_commits_on_second_arrival (fun _ _ => 0) 0 (1/5) (3/5)
      (by norm_num) (by norm_num) (by norm_num)⟩

/-- Claim C5, amended: For every `min_votes ≥ 1` and every bucket receiving
the same **non-empty** candidate text on each arrival, all within
`window_seconds` of each other, `add_vote` returns `None` on each of the
first `min_votes - 1` arrivals and commits the candidate on exactly the
`min_votes`-th arrival. -/
theorem repeated_candidate_commits_on_min_votes (ratio : String → String → ℚ)
    (w thr fs : ℚ) (minV : Nat) (x : String) (ts : List ℚ) (hx : x ≠ "")
    (hmin : 1 ≤ minV) (hlen : ts.length = minV)
    (hwin : ∀ a ∈ ts, ∀ b ∈ ts, a - b ≤ w) :
    (add_votes ratio (PlateVotes.init w minV thr fs)
      (ts.map (fun t => (x, t)))).2 =
      List.replicate (minV - 1) none ++ [some x] := by
  have h := add_votes_uniform ratio w thr fs minV x hx ts []
    (by simpa using hwin) (by simpa using hlen)
    (by
      intro h0
      rw [h0] at hlen
      simp at hlen
      omega)
  rw [hlen] at h
  exact h

/-- Witness for C5: the amended theorem at a concrete candidate and two
concrete in-window arrival times with `min_votes = 2`. -/
theorem repeated_candidate_commits_on_min_votes_witness :
    ("ABC123" : String) ≠ "" ∧ 1 ≤ 2 ∧ ([(0 : ℚ), 1]).length = 2 ∧
    (∀ a ∈ [(0 : ℚ), 1], ∀ b ∈ [(0 : ℚ), 1], a - b ≤ 2) ∧
    (add_votes (fun _ _ => (0 : ℚ)) (PlateVotes.init 2 2 (17/20) 0)
      ([(0 : ℚ), 1].map (fun t => ("ABC123", t)))).2 =
      List.replicate (2 - 1) none ++ [some "ABC123"] :=
  ⟨by decide, by decide, rfl,
    by
      intro a ha b hb
      fin_cases ha <;> fin_cases hb <;> norm_num,
    repeated_candidate_commits_on_min_votes (fun _ _ => 0) 2 (17/20) 0 2
      "ABC123" [0, 1] (by decide) (by decide) rfl
      (by
        intro a ha b hb
        fin_cases ha <;> fin_cases hb <;> norm_num)⟩

/-- Fact about `add_vote` on a fresh `min_votes = 1` bucket receiving the empty
string: the early stop and the fallback consensus both produce `""`, which
is Python-falsy, so the bucket neither returns a commit nor finalizes. -/
theorem add_vote_empty_first (ratio : String → String → ℚ) (w thr fs t : ℚ)
    (hw : 0 ≤ w) :
    add_vote ratio (PlateVotes.init w 1 thr fs) "" t =
      ({ window_seconds := w, min_votes := 1, similarity_threshold := thr,
         votes := [("", t)], first_seen := fs, finalized := false,
         final_result := none }, none) := by
  rw [add_vote_unfinalized ratio _ "" t rfl (by
    intro v hv
    simp only [PlateVotes.init, List.nil_append, List.mem_singleton] at hv
    subst hv
    show t - w ≤ t
    linarith)]
  have hes : check_early_stop
      { window_seconds := w, min_votes := 1, similarity_threshold := thr,
        votes := [("", t)], first_seen := fs, finalized := false,
        final_result := none } = some "" := rfl
  have hgc : get_consensus ratio
      { window_seconds := w, min_votes := 1, similarity_threshold := thr,
        votes := [("", t)], first_seen := fs, finalized := false,
        final_result := none } = some "" := rfl
  simp only [PlateVotes.init, List.nil_append]
  rw [hes]
  rw [show pyTruthy (some "") = false from rfl]
  simp only [Bool.false_eq_true, if_false]
  rw [if_pos (by simp)]
  rw [hgc]
  rw [show pyTruthy (some "") = false from rfl]
  simp only [Bool.false_eq_true, if_false]

/-- Claim C5, counterexample: With `min_votes = 1` and the bucket receiving
the candidate text `""` (the same text on each arrival, trivially within the
window), `add_vote` returns `None` on the 1st — i.e. the `min_votes`-th —
arrival instead of committing: the empty string is falsy in Python, so both
commit checks reject it and the bucket never finalizes. -/
theorem empty_candidate_never_commits :
    (add_vote (fun _ _ => (0 : ℚ)) (PlateVotes.init 2 1 (17/20) 0) "" 0).2 =
      none ∧
    (add_vote (fun _ _ => (0 : ℚ)) (PlateVotes.init 2 1 (17/20) 0) "" 0).1.finalized =
      false := by
  rw [add_vote_empty_first (fun _ _ => 0) 2 (17/20) 0 0 (by norm_num)]
  exact ⟨rfl, rfl⟩

end StreamCamera
